import Mathlib

set_option maxRecDepth 100000

/-!
Shallow embedding of the Teltonika Codec-8/12 MQTT gateway
(TypeScript sources: Codec12 module, CommandManager, SecurityManager,
TCP server data handler) together with proofs of the specified
properties.  Buffers are modelled as lists of byte values (`Nat`),
strings as Lean `String`s, and the Node.js `Map`/`Set` containers as
association lists / lists with set-like update operations.
-/

/-- One byte of a buffer: `buf[i]`, with 0 for an out-of-range read
(all reads in the models below are guarded by the same length checks
the source performs, or belong to a `try`/`catch` that the model turns
into an explicit bounds test). -/
def byteAt (buf : List Nat) (i : Nat) : Nat := buf.getD i 0

/-- Big-endian 32-bit encoding of a natural number, as written by
`Buffer.writeUInt32BE`. -/
def be32 (n : Nat) : List Nat :=
  [n / 2 ^ 24 % 256, n / 2 ^ 16 % 256, n / 2 ^ 8 % 256, n % 256]

/-- `Buffer.readUInt32BE(off)`. -/
def readU32 (buf : List Nat) (off : Nat) : Nat :=
  byteAt buf off * 2 ^ 24 + byteAt buf (off + 1) * 2 ^ 16 +
    byteAt buf (off + 2) * 2 ^ 8 + byteAt buf (off + 3)

/-- One shift step of the CRC-16/IBM loop (`Codec12.ts`,
`calculateCRC16` inner loop): right shift, XOR with 0xA001 when the
least significant bit was set before the shift. -/
def crc16Round (crc : Nat) : Nat :=
  if crc &&& 1 = 1 then (crc >>> 1) ^^^ 0xA001 else crc >>> 1

/-- Processing of a single input byte by `calculateCRC16`:
`crc ^= data[i]` followed by eight shift steps. -/
def crc16Byte (crc b : Nat) : Nat :=
  Nat.iterate crc16Round 8 (crc ^^^ b)

/-- `calculateCRC16` from `Codec12.ts`: accumulator starts at 0x0000,
each byte is folded in by `crc16Byte`, and the result is masked with
0xFFFF. -/
def calculateCRC16 (data : List Nat) : Nat :=
  (data.foldl crc16Byte 0) &&& 0xFFFF

/-- `buildCodec12Command` from `Codec12.ts`.  The command string is
turned into bytes by Node's latin1 path (`charCode % 256`); the frame
is preamble, 4-byte data size, data part
(codec id 0x0C, quantity 0x01, type 0x05, 4-byte command size, command
bytes, quantity 0x01) and the 4-byte CRC over the data part. -/
def buildCodec12Command (command : List Nat) : List Nat :=
  let commandBuffer := command.map (fun c => c % 256)
  let commandSize := commandBuffer.length
  let dataSize := 1 + 1 + 1 + 4 + commandSize + 1
  let dataPart := [0x0C, 0x01, 0x05] ++ be32 commandSize ++ commandBuffer ++ [0x01]
  let crc := calculateCRC16 dataPart
  be32 0 ++ be32 dataSize ++ dataPart ++ be32 crc

/-- The `Codec12Response` record of `Codec12.ts` (`response` and
`error` are optional fields).  The parsed response text is a list of
byte values. -/
structure Codec12Response where
  success : Bool
  response : Option (List Nat)
  error : Option String
deriving DecidableEq, Repr

/-- `parseCodec12Response` from `Codec12.ts`.  Reads that the source
performs without a preceding length check sit inside its
`try`/`catch`; the model makes the corresponding bounds tests explicit
and maps an out-of-range read to the catch result (`Parse error`).
`Buffer.slice` clamps, `toString('ascii')` clears the top bit of every
byte, and a CRC mismatch is tolerated (logged only). -/
def parseCodec12Response (data : List Nat) : Codec12Response :=
  if data.length < 20 then
    ⟨false, none, some "Buffer too small for Codec 12 response"⟩
  else
    let preamble := readU32 data 0
    if preamble ≠ 0 then ⟨false, none, some "Invalid preamble"⟩
    else
      let dataSize := readU32 data 4
      if data.length < 8 + dataSize + 4 then ⟨false, none, some "Incomplete message"⟩
      else
        let codecId := byteAt data 8
        if codecId ≠ 0x0C then ⟨false, none, some "Invalid Codec ID"⟩
        else
          let quantity1 := byteAt data 9
          let ty := byteAt data 10
          if ty ≠ 0x06 then ⟨false, none, some "Invalid response type"⟩
          else
            let responseSize := readU32 data 11
            let response := ((data.drop 15).take responseSize).map (fun b => b &&& 127)
            if data.length < 15 + responseSize + 1 then ⟨false, none, some "Parse error"⟩
            else
              let quantity2 := byteAt data (15 + responseSize)
              if quantity1 ≠ quantity2 then ⟨false, none, some "Quantity mismatch"⟩
              else if data.length < 16 + responseSize + 4 then ⟨false, none, some "Parse error"⟩
              else ⟨true, some response, none⟩

/-- `isCodec12Response` from `Codec12.ts`: at least 12 bytes, zero
preamble, codec id 0x0C at offset 8, type 0x06 at offset 10. -/
def isCodec12Response (data : List Nat) : Bool :=
  if data.length < 12 then false
  else if readU32 data 0 ≠ 0 then false
  else if byteAt data 8 ≠ 0x0C then false
  else byteAt data 10 = 0x06

/-- Lookup in a JS `Map`, modelled as an association list. -/
def mapGet {α : Type} (k : String) : List (String × α) → Option α
  | [] => none
  | p :: rest => if p.1 = k then some p.2 else mapGet k rest

/-- `Map.set`: the new binding shadows (replaces) any previous binding
of the same key. -/
def mapSet {α : Type} (k : String) (v : α) (m : List (String × α)) : List (String × α) :=
  (k, v) :: m.filter (fun p => decide (p.1 ≠ k))

/-- `Map.delete`. -/
def mapDelete {α : Type} (k : String) (m : List (String × α)) : List (String × α) :=
  m.filter (fun p => decide (p.1 ≠ k))

/-- Membership update of a JS `Set` of strings, modelled as a
duplicate-free list. -/
def setAdd (s : List String) (x : String) : List String :=
  if x ∈ s then s else s ++ [x]

/-- `Set.delete`. -/
def setDelete (s : List String) (x : String) : List String :=
  s.filter (fun y => decide (y ≠ x))

/-- A `PendingCommand` of `CommandManager.ts` (the callbacks and the
timer handle carry no decidable data; the queue entry is identified by
its command text and creation time). -/
structure PendingCommand where
  command : String
  timestamp : Nat
deriving DecidableEq, Repr

/-- A `DeviceConnection` of `CommandManager.ts`; `socketDestroyed`
models `socket.destroyed`. -/
structure DeviceConnection where
  imei : String
  uuid : String
  socketDestroyed : Bool
  pendingCommands : List PendingCommand
deriving DecidableEq, Repr

/-- The two maps held by `CommandManager`: `connections` (UUID keyed)
and `imeiToUuid`. -/
structure CMState where
  connections : List (String × DeviceConnection)
  imeiToUuid : List (String × String)
deriving DecidableEq, Repr

/-- A record emitted by the Codec 8/8E parser; only the timestamp is
inspected by the gateway (for sorting), the rest of the parsed record
is opaque payload. -/
structure AVLRec where
  timestamp : Nat
  payload : Nat
deriving DecidableEq, Repr

/-- Observable actions of the modelled code: socket writes and
destruction, event emissions, command resolution/rejection, and the
uncaught exception of an unregistered data packet. -/
inductive Effect where
  | write (bytes : List Nat)
  | destroy
  | emitConnected (imei uuid : String)
  | emitCommandResponse (imei uuid : String) (response : List Nat)
  | emitMessage (imei uuid : String) (rec : AVLRec)
  | resolveCommand (p : PendingCommand) (r : Codec12Response)
  | rejectCommand (p : PendingCommand) (reason : String)
  | emitUnsolicited (imei uuid : String) (r : Codec12Response)
  | warnUnknownUuid (uuid : String)
  | throwTypeError
deriving DecidableEq, Repr

/-- `CommandManager.registerDevice`: store a fresh connection under
the UUID and point the IMEI at that UUID. -/
def registerDevice (cm : CMState) (imei uuid : String) : CMState :=
  { connections := mapSet uuid ⟨imei, uuid, false, []⟩ cm.connections,
    imeiToUuid := mapSet imei uuid cm.imeiToUuid }

/-- `CommandManager.unregisterDevice`: if a connection exists for the
UUID, reject its pending commands, delete the IMEI binding and the
connection entry; otherwise do nothing. -/
def unregisterDevice (cm : CMState) (uuid : String) : CMState × List Effect :=
  match mapGet uuid cm.connections with
  | none => (cm, [])
  | some conn =>
      (⟨mapDelete uuid cm.connections, mapDelete conn.imei cm.imeiToUuid⟩,
        conn.pendingCommands.map (fun p => .rejectCommand p "Device disconnected"))

/-- `CommandManager.getConnectionByImei`. -/
def getConnectionByImei (cm : CMState) (imei : String) : Option DeviceConnection :=
  match mapGet imei cm.imeiToUuid with
  | some uuid => mapGet uuid cm.connections
  | none => none

/-- Result of `CommandManager.sendCommand` as visible to the caller at
dispatch time: the early error returns, or the promise with its queue
entry. -/
inductive SendOutcome where
  | notConnected (imei : String)
  | socketUnavailable (imei : String)
  | pendingIssued (p : PendingCommand)
deriving DecidableEq, Repr

/-- The synchronous part of `CommandManager.sendCommand`: resolve the
IMEI, check the socket, append a pending entry to the connection queue
and write the encoded Codec 12 frame.  (The timeout / write-error
callbacks remove the entry later and are not part of this step.) -/
def sendCommand (cm : CMState) (imei command : String) (now : Nat) :
    CMState × SendOutcome × List Effect :=
  match getConnectionByImei cm imei with
  | none => (cm, .notConnected imei, [])
  | some conn =>
      if conn.socketDestroyed then (cm, .socketUnavailable imei, [])
      else
        let p : PendingCommand := ⟨command, now⟩
        let conn2 := { conn with pendingCommands := conn.pendingCommands ++ [p] }
        ({ cm with connections := mapSet conn.uuid conn2 cm.connections },
          .pendingIssued p,
          [.write (buildCodec12Command (command.toList.map Char.toNat))])

/-- `CommandManager.handlePossibleResponse`: ignore non-Codec-12
buffers; warn on an unknown UUID; otherwise parse the response and
either resolve the oldest pending command with it or emit it as an
unsolicited `response` event. -/
def handlePossibleResponse (cm : CMState) (uuid : String) (data : List Nat) :
    Bool × CMState × List Effect :=
  if isCodec12Response data = false then (false, cm, [])
  else
    match mapGet uuid cm.connections with
    | none => (true, cm, [.warnUnknownUuid uuid])
    | some conn =>
        let parsed := parseCodec12Response data
        match conn.pendingCommands with
        | p :: rest =>
            (true,
              { cm with connections := mapSet uuid { conn with pendingCommands := rest } cm.connections },
              [.resolveCommand p parsed])
        | [] => (true, cm, [.emitUnsolicited conn.imei conn.uuid parsed])

/-- The fields of `SecurityConfig` (`SecurityManager.ts`) that the
device-facing checks read. -/
structure SecurityConfig where
  imeiWhitelistEnabled : Bool
  imeiWhitelist : List String
  ipWhitelistEnabled : Bool
  ipWhitelist : List String
  maxDevicesPerIp : Nat
  maxConnectionAttempts : Nat
  connectionAttemptWindow : Nat
deriving DecidableEq, Repr

/-- The documented defaults of `loadConfig` (environment unset):
whitelists disabled and empty, 10 devices per IP, 5 attempts per
300000 ms window. -/
def defaultSecurityConfig : SecurityConfig :=
  { imeiWhitelistEnabled := false, imeiWhitelist := [],
    ipWhitelistEnabled := false, ipWhitelist := [],
    maxDevicesPerIp := 10, maxConnectionAttempts := 5,
    connectionAttemptWindow := 300000 }

/-- A `ConnectionAttempt` entry of `SecurityManager.ts`. -/
structure ConnectionAttempt where
  attempts : Nat
  firstAttempt : Nat
  blocked : Bool
  blockedUntil : Option Nat
deriving DecidableEq, Repr

/-- The mutable state of `SecurityManager` touched by the
device-facing checks. -/
structure SecState where
  config : SecurityConfig
  connectionAttempts : List (String × ConnectionAttempt)
  blockedIps : List String
  devicesByIp : List (String × List String)
deriving DecidableEq, Repr

/-- A fresh `SecurityManager` state with the given configuration. -/
def initialSecState (cfg : SecurityConfig) : SecState :=
  ⟨cfg, [], [], []⟩

/-- The numeric value of a decimal digit character, as produced by
`parseInt(c, 10)` on a digit. -/
def digitVal (c : Char) : Nat := c.toNat - 48

/-- The loop body of `SecurityManager.luhnCheck`: accumulate the
digit, doubled (minus 9 when the double exceeds 9) when the `isEven`
flag is set, and toggle the flag. -/
def luhnStep (acc : Nat × Bool) (c : Char) : Nat × Bool :=
  let d := digitVal c
  let d := if acc.2 then (if d * 2 > 9 then d * 2 - 9 else d * 2) else d
  (acc.1 + d, !acc.2)

/-- `SecurityManager.luhnCheck`: walk the string right to left with a
parity flag that starts at false, doubling the digit (minus 9 when the
double exceeds 9) on every second position, and test the sum mod 10. -/
def luhnCheck (imei : String) : Bool :=
  (imei.toList.reverse.foldl luhnStep (0, false)).1 % 10 = 0

/-- `SecurityManager.validateImei`: regex `^\d{15}$`, then the Luhn
check, then (only when the whitelist feature is enabled) list
membership. -/
def validateImei (cfg : SecurityConfig) (imei : String) : Bool × Option String :=
  if ¬(imei.length = 15 ∧ imei.toList.all Char.isDigit) then
    (false, some "Invalid IMEI format")
  else if ¬luhnCheck imei then (false, some "Invalid IMEI checksum")
  else if cfg.imeiWhitelistEnabled ∧ imei ∉ cfg.imeiWhitelist then
    (false, some "IMEI not authorized")
  else (true, none)

/-- Devices-per-IP step of `SecurityManager.validateConnection` (its
final block). -/
def vcDeviceCap (st : SecState) (ip : String) (imei : Option String) :
    SecState × Option String :=
  let devicesFromIp := (mapGet ip st.devicesByIp).getD []
  match imei with
  | some m =>
      if m ∉ devicesFromIp ∧ devicesFromIp.length ≥ st.config.maxDevicesPerIp then
        (st, some "Maximum devices per IP exceeded")
      else (st, none)
  | none => (st, none)

/-- Attempt-window step of `SecurityManager.validateConnection`: roll
the window, count the attempt, and soft-ban the source when the count
exceeds `maxConnectionAttempts`. -/
def vcAttempts (st : SecState) (now : Nat) (ip : String) (imei : Option String) :
    SecState × Option String :=
  match mapGet ip st.connectionAttempts with
  | none =>
      vcDeviceCap
        { st with connectionAttempts := mapSet ip ⟨1, now, false, none⟩ st.connectionAttempts }
        ip imei
  | some a =>
      if now - a.firstAttempt > st.config.connectionAttemptWindow then
        vcDeviceCap
          { st with connectionAttempts := mapSet ip ⟨1, now, false, none⟩ st.connectionAttempts }
          ip imei
      else
        if a.attempts + 1 > st.config.maxConnectionAttempts then
          ({ st with
              connectionAttempts :=
                mapSet ip ⟨a.attempts + 1, a.firstAttempt, true,
                  some (now + st.config.connectionAttemptWindow)⟩ st.connectionAttempts,
              blockedIps := setAdd st.blockedIps ip },
            some "Too many connection attempts")
        else
          vcDeviceCap
            { st with
                connectionAttempts :=
                  mapSet ip ⟨a.attempts + 1, a.firstAttempt, a.blocked, a.blockedUntil⟩
                    st.connectionAttempts }
            ip imei

/-- Source whitelist step of `SecurityManager.validateConnection`. -/
def vcWhitelist (st : SecState) (now : Nat) (ip : String) (imei : Option String) :
    SecState × Option String :=
  if st.config.ipWhitelistEnabled ∧ ip ∉ st.config.ipWhitelist then
    (st, some "IP not authorized")
  else vcAttempts st now ip imei

/-- `SecurityManager.validateConnection`: a still-active soft-ban
denies immediately; an expired (or dangling) ban is lifted and the
whitelist / attempt-window / device-cap checks run. -/
def validateConnection (st : SecState) (now : Nat) (ip : String) (imei : Option String) :
    SecState × Option String :=
  if ip ∈ st.blockedIps then
    match mapGet ip st.connectionAttempts with
    | some a =>
        match a.blockedUntil with
        | some bu =>
            if now < bu then (st, some "IP temporarily blocked")
            else vcWhitelist { st with blockedIps := setDelete st.blockedIps ip } now ip imei
        | none => vcWhitelist { st with blockedIps := setDelete st.blockedIps ip } now ip imei
    | none => vcWhitelist { st with blockedIps := setDelete st.blockedIps ip } now ip imei
  else vcWhitelist st now ip imei

/-- `SecurityManager.registerDeviceConnection`: record the IMEI in the
per-source set and reset the attempt counter for the source. -/
def registerDeviceConnection (st : SecState) (ip imei : String) : SecState :=
  let devices := (mapGet ip st.devicesByIp).getD []
  { st with
      devicesByIp := mapSet ip (setAdd devices imei) st.devicesByIp,
      connectionAttempts := mapDelete ip st.connectionAttempts }

/-- The parsed content object produced by the external
`complete-teltonika-parser` `ProtocolParser`, restricted to the fields
the server handler reads: the codec type tag, the record list when the
frame carries `AVL_Datas`, and `Quantity1`. -/
structure ParsedContent where
  codecType : String
  avlDatas : Option (List AVLRec)
  quantity1 : Nat
deriving DecidableEq, Repr

/-- The result record of `listenForDevice` / `processPacket`
(`listenForDevice.ts`). -/
structure ListenResult where
  content : Option ParsedContent
  imei : Option String
  error : Option String
deriving DecidableEq, Repr

/-- `processPacket` from `listenForDevice.ts`.  The two calls into the
external parser library (`parseIMEI` on a 17-byte packet and
`new ProtocolParser` otherwise) are passed in as function parameters;
a `none` result models a throw, which the surrounding `try`/`catch`
turns into an error result.  The in-source logic — the 34-hex-digit
(17-byte) IMEI test and the `00000000` preamble guard — is explicit. -/
def processPacket (parseData : List Nat → Option ParsedContent)
    (parseImeiFn : List Nat → Option String) (data : List Nat) : ListenResult :=
  if data.length = 17 then
    match parseImeiFn data with
    | some i => ⟨none, some i, none⟩
    | none => ⟨none, none, some "Unknown parsing error"⟩
  else if ¬(4 ≤ data.length ∧ data.take 4 = [0, 0, 0, 0]) then
    ⟨none, none, some "Invalid preamble"⟩
  else
    match parseData data with
    | some c => ⟨some c, none, none⟩
    | none => ⟨none, none, some "Unknown parsing error"⟩

/-- The per-connection entry stored in `this.sockets[uuid]` by the TCP
server. -/
structure SockEntry where
  imei : String
  ip : String
deriving DecidableEq, Repr

/-- Result of one run of the `sock.on('data')` handler: the emitted
effects and the updated shared state (command manager, security
manager, and this connection's `sockets[uuid]` entry). -/
structure HandlerResult where
  effects : List Effect
  cm : CMState
  sec : SecState
  entry : Option SockEntry
deriving DecidableEq, Repr

/-- JS `Array.prototype.sort` by ascending timestamp, modelled as an
insertion sort. -/
def insertByTs (r : AVLRec) : List AVLRec → List AVLRec
  | [] => [r]
  | x :: xs => if r.timestamp ≤ x.timestamp then r :: x :: xs else x :: insertByTs r xs

/-- Sort a record batch by ascending timestamp. -/
def sortByTimestamp (l : List AVLRec) : List AVLRec :=
  l.foldr insertByTs []

/-- The non-Codec-12 path of the `sock.on('data')` handler
(`UdpServerManager.startServer`), taking the `listenForDevice` result:
the handshake branch (IMEI present, no content) validates the IMEI and
the connection, replies 0x00/0x01 and registers the device; the data
branch (content present, no IMEI) looks up `sockets[uuid]` (a missing
entry makes the source throw), emits the records sorted by timestamp
and acknowledges with `Quantity1` as 4 big-endian bytes.  When the
decode produced neither an IMEI nor content, neither branch runs. -/
def dataHandlerMain (cm : CMState) (sec : SecState) (entry : Option SockEntry)
    (uuid ip : String) (now : Nat) (ld : ListenResult) : HandlerResult :=
  match ld.content, ld.imei with
  | none, some m =>
      if (validateImei sec.config m).1 = false then
        ⟨[.write [0], .destroy], cm, sec, entry⟩
      else
        let vc := validateConnection sec now ip (some m)
        if vc.2.isSome then ⟨[.write [0], .destroy], cm, vc.1, entry⟩
        else
          ⟨[.write [1], .emitConnected m uuid],
            registerDevice cm m uuid,
            registerDeviceConnection vc.1 ip m,
            some ⟨m, ip⟩⟩
  | some c, none =>
      match entry with
      | none => ⟨[.throwTypeError], cm, sec, entry⟩
      | some e =>
          let emits :=
            match c.avlDatas with
            | some recs => (sortByTimestamp recs).map (fun r => Effect.emitMessage e.imei uuid r)
            | none => []
          ⟨emits ++ [.write (be32 c.quantity1)], cm, sec, entry⟩
  | _, _ => ⟨[], cm, sec, entry⟩

/-- The full `sock.on('data')` handler: the Codec 12 pre-check hands
the buffer to `CommandManager.handlePossibleResponse` and, when the
parse succeeded and the connection is registered, also emits the
`commandResponse` event; every other buffer goes through
`listenForDevice` (whose result is the `ld` parameter) into
`dataHandlerMain`. -/
def dataHandler (cm : CMState) (sec : SecState) (entry : Option SockEntry)
    (uuid ip : String) (now : Nat) (data : List Nat) (ld : ListenResult) : HandlerResult :=
  if isCodec12Response data then
    let r := handlePossibleResponse cm uuid data
    if r.1 then
      let parsed := parseCodec12Response data
      let extra :=
        match parsed.success, entry with
        | true, some e => [Effect.emitCommandResponse e.imei uuid (parsed.response.getD [])]
        | _, _ => []
      ⟨r.2.2 ++ extra, r.2.1, sec, entry⟩
    else dataHandlerMain r.2.1 sec entry uuid ip now ld
  else dataHandlerMain cm sec entry uuid ip now ld

/-- The doubling step of the spec's Luhn description: double the
digit, subtracting 9 when the doubled value exceeds 9. -/
def luhnDouble (d : Nat) : Nat := if d * 2 > 9 then d * 2 - 9 else d * 2

/-- The spec's Luhn sum over the digit list taken right to left:
every second digit (the 2nd, 4th, ... from the right) is doubled. -/
def luhnSpecSum : List Nat → Nat
  | [] => 0
  | [d] => d
  | d :: e :: rest => d + luhnDouble e + luhnSpecSum rest

/-- The spec's rendering of the per-byte XOR: the input byte is XORed
into the low byte of the accumulator, the high bytes untouched. -/
def xorLowByte (acc b : Nat) : Nat := acc / 256 * 256 + (acc % 256 ^^^ b)

/-- One shift step as worded by the spec: right-shift the accumulator,
XORing with 0xA001 exactly when the least significant bit was set
before the shift. -/
def crc16SpecRound (crc : Nat) : Nat :=
  if crc % 2 = 1 then crc / 2 ^^^ 0xA001 else crc / 2

/-- The spec's CRC-16/IBM: initial value 0x0000, per byte an XOR into
the low byte followed by eight shift steps, and no final XOR (and no
final mask). -/
def crc16Spec (data : List Nat) : Nat :=
  data.foldl (fun crc b => Nat.iterate crc16SpecRound 8 (xorLowByte crc b)) 0

/-- A queue entry used by the concrete examples. -/
def examplePending (i : Nat) : PendingCommand := ⟨"cmd", i⟩

/-- A registered connection with eight in-flight commands. -/
def exampleConn8 : DeviceConnection :=
  ⟨"111111111111111", "u1", false, (List.range 8).map examplePending⟩

/-- A command-manager state holding `exampleConn8`. -/
def exampleCM8 : CMState := ⟨[("u1", exampleConn8)], [("111111111111111", "u1")]⟩

/-- A registered connection with one in-flight command. -/
def exampleConn1 : DeviceConnection := ⟨"222222222222222", "u2", false, [⟨"getver", 5⟩]⟩

/-- A command-manager state holding `exampleConn1`. -/
def exampleCM1 : CMState := ⟨[("u2", exampleConn1)], [("222222222222222", "u2")]⟩

/-- A 12-byte buffer that `isCodec12Response` classifies as a Codec 12
response (zero preamble, codec id 0x0C at offset 8, type 0x06 at
offset 10). -/
def exampleC12Frame : List Nat := [0, 0, 0, 0, 0, 0, 0, 5, 12, 1, 6, 0]

/-- The admission state of a source after `n` counted attempts in a
window that started at time `t` (no ban yet). -/
def attemptState (ip : String) (n t : Nat) : SecState :=
  { initialSecState defaultSecurityConfig with
      connectionAttempts := [(ip, ⟨n, t, false, none⟩)] }

/-- The admission state of a soft-banned source: `n` counted attempts
since `t`, blocked until `bu`. -/
def banState (ip : String) (n t bu : Nat) : SecState :=
  { initialSecState defaultSecurityConfig with
      connectionAttempts := [(ip, ⟨n, t, true, some bu⟩)],
      blockedIps := [ip] }

/-- The concrete `getver` frame of the spec's scenario S4: preamble,
length 0x0E, body `0C 01 05 00 00 00 06 67 65 74 76 65 72 01`, and the
computed CRC (0xA4C2). -/
theorem buildCodec12Command_getver :
    buildCodec12Command [103, 101, 116, 118, 101, 114] =
      [0, 0, 0, 0, 0, 0, 0, 14, 12, 1, 5, 0, 0, 0, 6,
       103, 101, 116, 118, 101, 114, 1, 0, 0, 164, 194] := by decide

theorem mapGet_mapSet_self {α : Type} (k : String) (v : α) (m : List (String × α)) :
    mapGet k (mapSet k v m) = some v := by
  simp [mapGet, mapSet]

theorem mapGet_mapDelete_self {α : Type} (k : String) (m : List (String × α)) :
    mapGet k (mapDelete k m) = none := by
  induction m with
  | nil => rfl
  | cons p rest ih =>
      by_cases h : p.1 = k
      · simpa [mapDelete, List.filter, h] using ih
      · simpa [mapDelete, List.filter, h, mapGet] using ih

theorem buildCodec12Command_length (cmd : List Nat) :
    (buildCodec12Command cmd).length = 20 + cmd.length := by
  simp [buildCodec12Command, be32]
  omega

theorem buildCodec12Command_byte0 (cmd : List Nat) : byteAt (buildCodec12Command cmd) 0 = 0 := rfl

theorem buildCodec12Command_byte1 (cmd : List Nat) : byteAt (buildCodec12Command cmd) 1 = 0 := rfl

theorem buildCodec12Command_byte2 (cmd : List Nat) : byteAt (buildCodec12Command cmd) 2 = 0 := rfl

theorem buildCodec12Command_byte3 (cmd : List Nat) : byteAt (buildCodec12Command cmd) 3 = 0 := rfl

theorem buildCodec12Command_byte8 (cmd : List Nat) : byteAt (buildCodec12Command cmd) 8 = 12 := rfl

theorem buildCodec12Command_byte10 (cmd : List Nat) : byteAt (buildCodec12Command cmd) 10 = 5 := rfl

theorem buildCodec12Command_readU32_zero (cmd : List Nat) :
    readU32 (buildCodec12Command cmd) 0 = 0 := by
  simp [readU32, buildCodec12Command_byte0, buildCodec12Command_byte1,
    buildCodec12Command_byte2, buildCodec12Command_byte3]

/-- Claim C10: an encoded Codec 12 request is never classified as a
Codec 12 response: `buildCodec12Command` writes type byte 0x05 at
offset 10 while `isCodec12Response` requires 0x06 there, so for every
command text the classifier returns false on the encoder's output. -/
theorem c10_command_not_classified_as_response (cmd : List Nat)
    (h : cmd.length + 8 < 2 ^ 32) :
    isCodec12Response (buildCodec12Command cmd) = false := by
  simp [isCodec12Response, buildCodec12Command_length, buildCodec12Command_readU32_zero,
    buildCodec12Command_byte8, buildCodec12Command_byte10]

theorem c10_witness :
    [103, 101, 116, 118, 101, 114].length + 8 < 2 ^ 32 ∧
      isCodec12Response (buildCodec12Command [103, 101, 116, 118, 101, 114]) = false :=
  ⟨by decide, c10_command_not_classified_as_response [103, 101, 116, 118, 101, 114] (by decide)⟩

/-- Claim C2: when a Codec 12 response frame arrives for a registered
device connection, `handlePossibleResponse` removes the oldest entry
of that connection's pending queue and resolves it with the parsed
response; with an empty queue the parsed response is emitted as an
unsolicited `response` event instead (not treated as an error). -/
theorem c2_fifo_response_pairing (cm : CMState) (uuid : String) (data : List Nat)
    (conn : DeviceConnection)
    (hc : mapGet uuid cm.connections = some conn)
    (hr : isCodec12Response data = true) :
    (∀ p rest, conn.pendingCommands = p :: rest →
        handlePossibleResponse cm uuid data =
          (true,
            { cm with connections := mapSet uuid { conn with pendingCommands := rest } cm.connections },
            [.resolveCommand p (parseCodec12Response data)]))
    ∧ (conn.pendingCommands = [] →
        handlePossibleResponse cm uuid data =
          (true, cm, [.emitUnsolicited conn.imei conn.uuid (parseCodec12Response data)])) := by
  constructor
  · intro p rest hq
    simp [handlePossibleResponse, hr, hc, hq]
  · intro hq
    simp [handlePossibleResponse, hr, hc, hq]

theorem c2_witness :
    mapGet "u2" exampleCM1.connections = some exampleConn1 ∧
      isCodec12Response exampleC12Frame = true ∧
      handlePossibleResponse exampleCM1 "u2" exampleC12Frame =
        (true,
          ⟨[("u2", ⟨"222222222222222", "u2", false, []⟩)], [("222222222222222", "u2")]⟩,
          [.resolveCommand ⟨"getver", 5⟩ (parseCodec12Response exampleC12Frame)]) := by
  refine ⟨by decide, by decide, ?_⟩
  have h :=
    (c2_fifo_response_pairing exampleCM1 "u2" exampleC12Frame exampleConn1
      (by decide) (by decide)).1 ⟨"getver", 5⟩ [] (by decide)
  rw [h]
  decide

/-- Claim C3 fails on the code (`sendCommand` has no pipelining
bound): with eight commands already pending on the connection, a ninth
`sendCommand` call still appends a ninth queue entry and yields the
pending promise rather than a back-pressure error. -/
theorem c3_counterexample :
    (getConnectionByImei (sendCommand exampleCM8 "111111111111111" "getinfo" 50).1
        "111111111111111").map (fun c => c.pendingCommands.length) = some 9 ∧
      (sendCommand exampleCM8 "111111111111111" "getinfo" 50).2.1 =
        .pendingIssued ⟨"getinfo", 50⟩ := by
  decide

/-- Claim C3 amended: `CommandManager.sendCommand` imposes no bound on
the pending-command queue: whenever the IMEI resolves to a live
connection, the call appends one more pending entry to the queue —
whatever its current length — and returns the pending promise; no
back-pressure error path exists in the code. -/
theorem c3_no_pipelining_bound (cm : CMState) (imei command : String) (now : Nat)
    (uuid : String) (conn : DeviceConnection)
    (hu : mapGet imei cm.imeiToUuid = some uuid)
    (hc : mapGet uuid cm.connections = some conn)
    (hs : conn.socketDestroyed = false) :
    sendCommand cm imei command now =
      ({ cm with
          connections :=
            mapSet conn.uuid
              { conn with pendingCommands := conn.pendingCommands ++ [⟨command, now⟩] }
              cm.connections },
        .pendingIssued ⟨command, now⟩,
        [.write (buildCodec12Command (command.toList.map Char.toNat))]) := by
  simp [sendCommand, getConnectionByImei, hu, hc, hs]

theorem c3_witness :
    mapGet "111111111111111" exampleCM8.imeiToUuid = some "u1" ∧
      mapGet "u1" exampleCM8.connections = some exampleConn8 ∧
      exampleConn8.socketDestroyed = false ∧
      sendCommand exampleCM8 "111111111111111" "getio" 60 =
        ({ exampleCM8 with
            connections :=
              mapSet exampleConn8.uuid
                { exampleConn8 with
                    pendingCommands := exampleConn8.pendingCommands ++ [⟨"getio", 60⟩] }
                exampleCM8.connections },
          .pendingIssued ⟨"getio", 60⟩,
          [.write (buildCodec12Command ("getio".toList.map Char.toNat))]) :=
  ⟨by decide, by decide, by decide,
    c3_no_pipelining_bound exampleCM8 "111111111111111" "getio" 60 "u1" exampleConn8
      (by decide) (by decide) (by decide)⟩

/-- Claim C4 fails on the code: after a newer session `u2` is
registered for the same IMEI, the late teardown of the old session
`u1` still deletes the IMEI binding (`unregisterDevice` removes the
`imeiToUuid` entry of any still-present connection), evicting the
newer binding instead of leaving the mapping unchanged. -/
theorem c4_counterexample :
    mapGet "353691844288760"
        (registerDevice (registerDevice ⟨[], []⟩ "353691844288760" "u1")
            "353691844288760" "u2").imeiToUuid = some "u2" ∧
      mapGet "353691844288760"
        (unregisterDevice
            (registerDevice (registerDevice ⟨[], []⟩ "353691844288760" "u1")
              "353691844288760" "u2") "u1").1.imeiToUuid = none := by
  decide

/-- Claim C4 amended: `unregisterDevice` is occupant-blind.  It is a
no-op only when no connection at all is stored for the UUID; whenever
a connection with that UUID is still present, it deletes both the
connection entry and the `imeiToUuid` entry for that connection's
IMEI — even when a newer session currently occupies the binding, so a
late teardown does evict the newer binding. -/
theorem c4_unregister_occupant_blind (cm : CMState) (uuid : String) :
    (mapGet uuid cm.connections = none → unregisterDevice cm uuid = (cm, []))
    ∧ (∀ conn, mapGet uuid cm.connections = some conn →
        (unregisterDevice cm uuid).1 =
          ⟨mapDelete uuid cm.connections, mapDelete conn.imei cm.imeiToUuid⟩ ∧
        mapGet conn.imei (unregisterDevice cm uuid).1.imeiToUuid = none) := by
  constructor
  · intro h
    simp [unregisterDevice, h]
  · intro conn h
    refine ⟨by simp [unregisterDevice, h], ?_⟩
    simp [unregisterDevice, h, mapGet_mapDelete_self]

theorem c4_witness :
    (∀ conn, mapGet "u1" exampleCM1.connections = some conn →
        (unregisterDevice exampleCM1 "u1").1 =
          ⟨mapDelete "u1" exampleCM1.connections, mapDelete conn.imei exampleCM1.imeiToUuid⟩ ∧
        mapGet conn.imei (unregisterDevice exampleCM1 "u1").1.imeiToUuid = none) ∧
      mapGet "u2" exampleCM1.connections = some exampleConn1 ∧
      mapGet "222222222222222" (unregisterDevice exampleCM1 "u2").1.imeiToUuid = none :=
  ⟨(c4_unregister_occupant_blind exampleCM1 "u1").2, by decide,
    ((c4_unregister_occupant_blind exampleCM1 "u2").2 exampleConn1 (by decide)).2⟩

theorem luhn_foldl_eq : ∀ (cs : List Char) (s : Nat),
    (cs.foldl luhnStep (s, false)).1 = s + luhnSpecSum (cs.map digitVal)
  | [], s => by simp [luhnSpecSum]
  | [c], s => by simp [luhnStep, luhnSpecSum]
  | c :: e :: rest, s => by
      have ih := luhn_foldl_eq rest (s + digitVal c + luhnDouble (digitVal e))
      simp only [List.foldl, List.map, luhnSpecSum]
      have h1 : luhnStep (s, false) c = (s + digitVal c, true) := by
        simp [luhnStep]
      have h2 : luhnStep (s + digitVal c, true) e =
          (s + digitVal c + luhnDouble (digitVal e), false) := by
        simp [luhnStep, luhnDouble]
      rw [h1, h2, ih]
      omega


theorem luhnCheck_iff (imei : String) :
    luhnCheck imei = true ↔ luhnSpecSum (imei.toList.reverse.map digitVal) % 10 = 0 := by
  unfold luhnCheck
  rw [luhn_foldl_eq]
  simp

/-- Claim C7: with the IMEI allow-list disabled, `validateImei`
accepts a string iff it is exactly 15 decimal digits whose Luhn sum
(right to left, doubling every second digit, subtracting 9 when the
doubled value exceeds 9) is 0 mod 10; and with the allow-list enabled,
a string absent from the list is rejected even when Luhn-valid. -/
theorem c7_validate_imei (cfg : SecurityConfig) (imei : String)
    (hoff : cfg.imeiWhitelistEnabled = false) :
    ((validateImei cfg imei).1 = true ↔
      imei.length = 15 ∧ imei.toList.all Char.isDigit = true ∧
        luhnSpecSum (imei.toList.reverse.map digitVal) % 10 = 0)
    ∧ (∀ cfg2 : SecurityConfig, cfg2.imeiWhitelistEnabled = true →
        imei ∉ cfg2.imeiWhitelist → (validateImei cfg2 imei).1 = false) := by
  constructor
  · rw [← luhnCheck_iff]
    unfold validateImei
    split_ifs with h1 h2 h3
    all_goals first
      | exact iff_of_true rfl ⟨h1.1, h1.2, h2⟩
      | exact iff_of_false (by simp) (fun hcon => h1 ⟨hcon.1, hcon.2.1⟩)
      | exact iff_of_false (by simp) (fun hcon => h2 hcon.2.2)
      | exact absurd h3.1 (by simp [hoff])
  · intro cfg2 h2 hnot
    unfold validateImei
    split_ifs with ha hb hc
    all_goals first
      | rfl
      | exact absurd ⟨h2, hnot⟩ hc

theorem c7_witness :
    defaultSecurityConfig.imeiWhitelistEnabled = false ∧
      (validateImei defaultSecurityConfig "353691844288760").1 = true ∧
      (validateImei
          { defaultSecurityConfig with imeiWhitelistEnabled := true }
          "353691844288760").1 = false :=
  ⟨rfl,
    (c7_validate_imei defaultSecurityConfig "353691844288760" rfl).1.mpr (by decide),
    (c7_validate_imei defaultSecurityConfig "353691844288760" rfl).2
      { defaultSecurityConfig with imeiWhitelistEnabled := true } rfl (by decide)⟩

/-- Claim C5 fails on the code: on a buffer whose decode fails (the
`listenForDevice` result carries neither an IMEI nor content — here
the one-byte buffer 0x01, rejected by the preamble guard), the data
handler of an established session takes no action at all: no
`destroy`, no write, no event.  The session is not closed with a
protocol error. -/
theorem c5_counterexample :
    (processPacket (fun _ => none) (fun _ => none) [1]).content = none ∧
      (processPacket (fun _ => none) (fun _ => none) [1]).imei = none ∧
      (dataHandler ⟨[], []⟩ (initialSecState defaultSecurityConfig)
          (some ⟨"353691844288760", "10.0.0.7"⟩) "u1" "10.0.0.7" 0 [1]
          (processPacket (fun _ => none) (fun _ => none) [1])).effects = [] ∧
      Effect.destroy ∉
        (dataHandler ⟨[], []⟩ (initialSecState defaultSecurityConfig)
            (some ⟨"353691844288760", "10.0.0.7"⟩) "u1" "10.0.0.7" 0 [1]
            (processPacket (fun _ => none) (fun _ => none) [1])).effects := by
  decide

/-- Claim C5 amended: when an in-session buffer is not classified as a
Codec 12 response and its decode fails (neither an IMEI nor content in
the `listenForDevice` result), the data handler does nothing: it
produces no effects — in particular it does not destroy the socket —
and leaves the command-manager state, the security state and the
session entry unchanged.  A buffer that merely needs more bytes is
likewise left without any session-closing action. -/
theorem c5_malformed_ignored (cm : CMState) (sec : SecState) (entry : Option SockEntry)
    (uuid ip : String) (now : Nat) (data : List Nat) (ld : ListenResult)
    (hnc : isCodec12Response data = false)
    (hcontent : ld.content = none) (himei : ld.imei = none) :
    dataHandler cm sec entry uuid ip now data ld = ⟨[], cm, sec, entry⟩ := by
  simp [dataHandler, hnc, dataHandlerMain, hcontent, himei]

theorem c5_witness :
    isCodec12Response [2] = false ∧
      (processPacket (fun _ => none) (fun _ => none) [2]).content = none ∧
      (processPacket (fun _ => none) (fun _ => none) [2]).imei = none ∧
      dataHandler exampleCM1 (initialSecState defaultSecurityConfig)
          (some ⟨"222222222222222", "10.0.0.8"⟩) "u2" "10.0.0.8" 3 [2]
          (processPacket (fun _ => none) (fun _ => none) [2]) =
        ⟨[], exampleCM1, initialSecState defaultSecurityConfig,
          some ⟨"222222222222222", "10.0.0.8"⟩⟩ :=
  ⟨by decide, by decide, by decide,
    c5_malformed_ignored exampleCM1 (initialSecState defaultSecurityConfig)
      (some ⟨"222222222222222", "10.0.0.8"⟩) "u2" "10.0.0.8" 3 [2]
      (processPacket (fun _ => none) (fun _ => none) [2]) (by decide) (by decide) (by decide)⟩

theorem be32_length (n : Nat) : (be32 n).length = 4 := rfl

theorem readU32_be32 (n : Nat) (h : n < 2 ^ 32) : readU32 (be32 n) 0 = n := by
  simp [readU32, be32, byteAt, List.getD]
  omega

/-- Claim C6: for every decoded AVL frame handled on an established
session, the server's acknowledgement write is exactly the 4-byte
big-endian encoding of the frame's `Quantity1` (which decodes back to
`Quantity1`), emitted after the per-record events — it is the record
count, not the byte length of the frame. -/
theorem c6_avl_ack (cm : CMState) (sec : SecState) (e : SockEntry) (uuid ip : String)
    (now : Nat) (data : List Nat) (ld : ListenResult) (c : ParsedContent)
    (recs : List AVLRec)
    (hnc : isCodec12Response data = false)
    (hcontent : ld.content = some c) (himei : ld.imei = none)
    (havl : c.avlDatas = some recs) (hq : c.quantity1 < 2 ^ 32) :
    (dataHandler cm sec (some e) uuid ip now data ld).effects =
        (sortByTimestamp recs).map (fun r => Effect.emitMessage e.imei uuid r) ++
          [Effect.write (be32 c.quantity1)] ∧
      (be32 c.quantity1).length = 4 ∧
      readU32 (be32 c.quantity1) 0 = c.quantity1 := by
  refine ⟨?_, be32_length c.quantity1, readU32_be32 c.quantity1 hq⟩
  simp [dataHandler, hnc, dataHandlerMain, hcontent, himei, havl]

theorem c6_witness :
    isCodec12Response [0] = false ∧
      (dataHandler exampleCM1 (initialSecState defaultSecurityConfig)
          (some ⟨"222222222222222", "10.0.0.9"⟩) "u2" "10.0.0.9" 4 [0]
          ⟨some ⟨"data sending", some [⟨20, 0⟩, ⟨10, 1⟩, ⟨30, 2⟩], 3⟩, none, none⟩).effects =
        [Effect.emitMessage "222222222222222" "u2" ⟨10, 1⟩,
          Effect.emitMessage "222222222222222" "u2" ⟨20, 0⟩,
          Effect.emitMessage "222222222222222" "u2" ⟨30, 2⟩,
          Effect.write [0, 0, 0, 3]] := by
  refine ⟨by decide, ?_⟩
  have h :=
    (c6_avl_ack exampleCM1 (initialSecState defaultSecurityConfig)
        ⟨"222222222222222", "10.0.0.9"⟩ "u2" "10.0.0.9" 4 [0]
        ⟨some ⟨"data sending", some [⟨20, 0⟩, ⟨10, 1⟩, ⟨30, 2⟩], 3⟩, none, none⟩
        ⟨"data sending", some [⟨20, 0⟩, ⟨10, 1⟩, ⟨30, 2⟩], 3⟩
        [⟨20, 0⟩, ⟨10, 1⟩, ⟨30, 2⟩]
        (by decide) rfl rfl rfl (by decide)).1
  rw [h]
  decide

theorem testBit_mul256_add (q r i : Nat) (hr : r < 256) :
    (256 * q + r).testBit i = if i < 8 then r.testBit i else q.testBit (i - 8) := by
  rcases Nat.lt_or_ge i 8 with hi | hi
  · rw [if_pos hi]
    rw [Nat.testBit_to_div_mod, Nat.testBit_to_div_mod]
    have h256 : (256 : Nat) = 2 ^ i * 2 ^ (8 - i) := by
      rw [← pow_add]
      have hexp : i + (8 - i) = 8 := by omega
      rw [hexp]
      norm_num
    have hdiv : (256 * q + r) / 2 ^ i = 2 ^ (8 - i) * q + r / 2 ^ i := by
      rw [h256, mul_assoc, Nat.mul_add_div (Nat.pos_pow_of_pos i (by norm_num))]
    rw [hdiv]
    have hsplit : 2 ^ (8 - i) * q = 2 * (2 ^ (7 - i) * q) := by
      have h8 : 8 - i = (7 - i) + 1 := by omega
      rw [h8, pow_succ]
      ring
    rw [hsplit, Nat.mul_add_mod]
  · rw [if_neg (by omega)]
    obtain ⟨j, rfl⟩ : ∃ j, i = 8 + j := ⟨i - 8, by omega⟩
    have hj : 8 + j - 8 = j := by omega
    rw [hj, ← Nat.testBit_shiftRight]
    congr 1
    rw [Nat.shiftRight_eq_div_pow]
    have h2 : (2 : Nat) ^ 8 = 256 := by norm_num
    rw [h2, Nat.mul_add_div (by norm_num), Nat.div_eq_of_lt hr]
    omega

theorem xor_low_eq (a b : Nat) (hb : b < 256) :
    a ^^^ b = a / 256 * 256 + (a % 256 ^^^ b) := by
  have h1 : a % 256 < 2 ^ 8 := by
    have := Nat.mod_lt a (show 0 < 256 by norm_num)
    simpa using this
  have h2 : b < 2 ^ 8 := by simpa using hb
  have hr : a % 256 ^^^ b < 256 := by
    simpa using Nat.xor_lt_two_pow h1 h2
  rw [mul_comm (a / 256) 256]
  apply Nat.eq_of_testBit_eq
  intro i
  rw [testBit_mul256_add _ _ _ hr, Nat.testBit_xor]
  rcases Nat.lt_or_ge i 8 with hi | hi
  · rw [if_pos hi, Nat.testBit_xor]
    have hm : (a % 256).testBit i = a.testBit i := by
      have h256 : (256 : Nat) = 2 ^ 8 := by norm_num
      rw [h256, Nat.testBit_mod_two_pow, decide_eq_true hi, Bool.true_and]
    rw [hm]
  · rw [if_neg (by omega)]
    have hbz : b.testBit i = false := by
      apply Nat.testBit_lt_two_pow
      calc b < 256 := hb
        _ = 2 ^ 8 := by norm_num
        _ ≤ 2 ^ i := Nat.pow_le_pow_right (by norm_num) hi
    rw [hbz, Bool.xor_false]
    have hd : a / 256 = a >>> 8 := by
      rw [Nat.shiftRight_eq_div_pow]
    rw [hd, Nat.testBit_shiftRight]
    congr 1
    omega

theorem crc16Round_eq (c : Nat) : crc16Round c = crc16SpecRound c := by
  unfold crc16Round crc16SpecRound
  rw [Nat.and_one_is_mod, Nat.shiftRight_eq_div_pow]

theorem crc16Round_funext : crc16Round = crc16SpecRound := funext crc16Round_eq

theorem crc16SpecRound_lt (c : Nat) (h : c < 65536) : crc16SpecRound c < 65536 := by
  unfold crc16SpecRound
  split_ifs
  · have h2 : c / 2 < 2 ^ 16 := by omega
    have h3 : (0xA001 : Nat) < 2 ^ 16 := by norm_num
    have h4 := Nat.xor_lt_two_pow h2 h3
    simpa using h4
  · omega

theorem iterate_specRound_lt (n : Nat) : ∀ x, x < 65536 → Nat.iterate crc16SpecRound n x < 65536 := by
  induction n with
  | zero => intro x hx; simpa using hx
  | succ k ih =>
      intro x hx
      rw [Function.iterate_succ_apply]
      exact ih _ (crc16SpecRound_lt x hx)

theorem xorLowByte_lt (x b : Nat) (hx : x < 65536) (hb : b < 256) : xorLowByte x b < 65536 := by
  unfold xorLowByte
  have h1 : x / 256 < 256 := by omega
  have ha : x % 256 < 2 ^ 8 := by
    have := Nat.mod_lt x (show 0 < 256 by norm_num)
    simpa using this
  have hb8 : b < 2 ^ 8 := by simpa using hb
  have hr : x % 256 ^^^ b < 256 := by
    simpa using Nat.xor_lt_two_pow ha hb8
  omega

theorem crc16Byte_eq_spec (crc b : Nat) (hb : b < 256) :
    crc16Byte crc b = Nat.iterate crc16SpecRound 8 (xorLowByte crc b) := by
  unfold crc16Byte
  rw [crc16Round_funext, xor_low_eq crc b hb]
  rfl

theorem crc_fold_eq : ∀ (data : List Nat) (crc : Nat), (∀ x ∈ data, x < 256) → crc < 65536 →
    data.foldl crc16Byte crc =
        data.foldl (fun c b => Nat.iterate crc16SpecRound 8 (xorLowByte c b)) crc ∧
      data.foldl crc16Byte crc < 65536
  | [], crc => by
      intro _ hc
      exact ⟨rfl, hc⟩
  | b :: rest, crc => by
      intro hmem hc
      have hb : b < 256 := hmem b (List.mem_cons_self b rest)
      have hstep : crc16Byte crc b = Nat.iterate crc16SpecRound 8 (xorLowByte crc b) :=
        crc16Byte_eq_spec crc b hb
      have hlt : crc16Byte crc b < 65536 := by
        rw [hstep]
        exact iterate_specRound_lt 8 _ (xorLowByte_lt crc b hc hb)
      have ih := crc_fold_eq rest (crc16Byte crc b)
        (fun x hx => hmem x (List.mem_cons_of_mem b hx)) hlt
      refine ⟨?_, ih.2⟩
      simp only [List.foldl_cons]
      rw [ih.1, hstep]

/-- Claim C8: for every byte sequence, `calculateCRC16` equals the
spec's CRC-16/IBM reference (accumulator starting at 0x0000, each
input byte XORed into the low byte, eight steps that right-shift and
XOR with 0xA001 exactly when the LSB was set before the shift, no
final XOR), and the result lies in [0, 0xFFFF]. -/
theorem c8_crc16_reference (data : List Nat) (h : ∀ b ∈ data, b < 256) :
    calculateCRC16 data = crc16Spec data ∧ calculateCRC16 data ≤ 0xFFFF := by
  obtain ⟨hfe, hfl⟩ := crc_fold_eq data 0 h (by norm_num)
  unfold calculateCRC16 crc16Spec
  have hmask : data.foldl crc16Byte 0 &&& 0xFFFF = data.foldl crc16Byte 0 := by
    have h16 : (0xFFFF : Nat) = 2 ^ 16 - 1 := by norm_num
    rw [h16]
    exact Nat.and_pow_two_sub_one_of_lt_two_pow (by simpa using hfl)
  rw [hmask, hfe]
  refine ⟨rfl, ?_⟩
  rw [← hfe]
  omega


theorem c8_witness :
    (∀ b ∈ [12, 1, 5, 0, 0, 0, 6, 103, 101, 116, 118, 101, 114, 1], b < 256) ∧
      calculateCRC16 [12, 1, 5, 0, 0, 0, 6, 103, 101, 116, 118, 101, 114, 1] =
          crc16Spec [12, 1, 5, 0, 0, 0, 6, 103, 101, 116, 118, 101, 114, 1] ∧
        calculateCRC16 [12, 1, 5, 0, 0, 0, 6, 103, 101, 116, 118, 101, 114, 1] ≤ 0xFFFF :=
  ⟨by decide,
    c8_crc16_reference [12, 1, 5, 0, 0, 0, 6, 103, 101, 116, 118, 101, 114, 1] (by decide)⟩

theorem vc_fresh (st : SecState) (now : Nat) (ip : String)
    (hb : ip ∉ st.blockedIps) (ha : mapGet ip st.connectionAttempts = none)
    (hw : st.config.ipWhitelistEnabled = false) :
    validateConnection st now ip none =
      ({ st with connectionAttempts := mapSet ip ⟨1, now, false, none⟩ st.connectionAttempts },
        none) := by
  unfold validateConnection
  rw [if_neg hb]
  unfold vcWhitelist
  rw [if_neg (by simp [hw])]
  unfold vcAttempts
  rw [ha]
  rfl

theorem vc_count (st : SecState) (now : Nat) (ip : String) (a : ConnectionAttempt)
    (hb : ip ∉ st.blockedIps) (ha : mapGet ip st.connectionAttempts = some a)
    (hw : st.config.ipWhitelistEnabled = false)
    (hwin : ¬(now - a.firstAttempt > st.config.connectionAttemptWindow))
    (hmax : ¬(a.attempts + 1 > st.config.maxConnectionAttempts)) :
    validateConnection st now ip none =
      ({ st with
          connectionAttempts :=
            mapSet ip ⟨a.attempts + 1, a.firstAttempt, a.blocked, a.blockedUntil⟩
              st.connectionAttempts },
        none) := by
  unfold validateConnection
  rw [if_neg hb]
  unfold vcWhitelist
  rw [if_neg (by simp [hw])]
  unfold vcAttempts
  rw [ha]
  simp only [if_neg hwin, if_neg hmax]
  rfl

theorem vc_ban (st : SecState) (now : Nat) (ip : String) (a : ConnectionAttempt)
    (hb : ip ∉ st.blockedIps) (ha : mapGet ip st.connectionAttempts = some a)
    (hw : st.config.ipWhitelistEnabled = false)
    (hwin : ¬(now - a.firstAttempt > st.config.connectionAttemptWindow))
    (hmax : a.attempts + 1 > st.config.maxConnectionAttempts) :
    validateConnection st now ip none =
      ({ st with
          connectionAttempts :=
            mapSet ip ⟨a.attempts + 1, a.firstAttempt, true,
              some (now + st.config.connectionAttemptWindow)⟩ st.connectionAttempts,
          blockedIps := setAdd st.blockedIps ip },
        some "Too many connection attempts") := by
  unfold validateConnection
  rw [if_neg hb]
  unfold vcWhitelist
  rw [if_neg (by simp [hw])]
  unfold vcAttempts
  rw [ha]
  simp only [if_neg hwin, if_pos hmax]

theorem vc_blocked (st : SecState) (now : Nat) (ip : String) (a : ConnectionAttempt) (bu : Nat)
    (hb : ip ∈ st.blockedIps) (ha : mapGet ip st.connectionAttempts = some a)
    (hbu : a.blockedUntil = some bu) (hn : now < bu) :
    validateConnection st now ip none = (st, some "IP temporarily blocked") := by
  simp only [validateConnection, if_pos hb, ha, hbu, if_pos hn]


/-- Claim C9: with the default admission configuration (5 attempts
per 300000 ms window), six openings from one source within one window
make `validateConnection` deny the sixth with the too-many-attempts
reason and record a soft-ban expiring at the sixth attempt time plus
the window; every subsequent open before that expiry is denied
(temporarily blocked) with the state unchanged. -/
theorem c9_soft_ban (ip : String) (t1 t2 t3 t4 t5 t6 : Nat)
    (h12 : t1 ≤ t2) (h23 : t2 ≤ t3) (h34 : t3 ≤ t4) (h45 : t4 ≤ t5) (h56 : t5 ≤ t6)
    (hwin : t6 - t1 ≤ 300000) :
    validateConnection (initialSecState defaultSecurityConfig) t1 ip none =
        (attemptState ip 1 t1, none) ∧
      validateConnection (attemptState ip 1 t1) t2 ip none = (attemptState ip 2 t1, none) ∧
      validateConnection (attemptState ip 2 t1) t3 ip none = (attemptState ip 3 t1, none) ∧
      validateConnection (attemptState ip 3 t1) t4 ip none = (attemptState ip 4 t1, none) ∧
      validateConnection (attemptState ip 4 t1) t5 ip none = (attemptState ip 5 t1, none) ∧
      validateConnection (attemptState ip 5 t1) t6 ip none =
        (banState ip 6 t1 (t6 + 300000), some "Too many connection attempts") ∧
      ∀ t7, t7 < t6 + 300000 →
        validateConnection (banState ip 6 t1 (t6 + 300000)) t7 ip none =
          (banState ip 6 t1 (t6 + 300000), some "IP temporarily blocked") := by
  have hcount : ∀ n t, n + 1 ≤ 5 → t1 ≤ t → t - t1 ≤ 300000 →
      validateConnection (attemptState ip n t1) t ip none = (attemptState ip (n + 1) t1, none) := by
    intro n t hn ht hwt
    have h := vc_count (attemptState ip n t1) t ip ⟨n, t1, false, none⟩
      (by simp [attemptState, initialSecState])
      (by simp [attemptState, initialSecState, mapGet])
      rfl
      (show ¬(t - t1 > 300000) by omega)
      (show ¬(n + 1 > 5) by omega)
    rw [h]
    simp [attemptState, initialSecState, mapSet]
  have h1 : validateConnection (initialSecState defaultSecurityConfig) t1 ip none =
      (attemptState ip 1 t1, none) := by
    have h := vc_fresh (initialSecState defaultSecurityConfig) t1 ip
      (by simp [initialSecState]) rfl rfl
    rw [h]
    simp [attemptState, initialSecState, mapSet]
  have h6 : validateConnection (attemptState ip 5 t1) t6 ip none =
      (banState ip 6 t1 (t6 + 300000), some "Too many connection attempts") := by
    have h := vc_ban (attemptState ip 5 t1) t6 ip ⟨5, t1, false, none⟩
      (by simp [attemptState, initialSecState])
      (by simp [attemptState, initialSecState, mapGet])
      rfl
      (show ¬(t6 - t1 > 300000) by omega)
      (show 5 + 1 > 5 by omega)
    rw [h]
    simp [attemptState, banState, initialSecState, defaultSecurityConfig, mapSet, setAdd]
  refine ⟨h1, hcount 1 t2 (by omega) h12 (by omega), hcount 2 t3 (by omega) (by omega) (by omega),
    hcount 3 t4 (by omega) (by omega) (by omega), hcount 4 t5 (by omega) (by omega) (by omega),
    h6, ?_⟩
  intro t7 ht7
  exact vc_blocked (banState ip 6 t1 (t6 + 300000)) t7 ip ⟨6, t1, true, some (t6 + 300000)⟩
    (t6 + 300000) (by simp [banState]) (by simp [banState, mapGet]) rfl ht7


theorem c9_witness :
    validateConnection (initialSecState defaultSecurityConfig) 10 "10.1.1.1" none =
        (attemptState "10.1.1.1" 1 10, none) ∧
      validateConnection (attemptState "10.1.1.1" 1 10) 20 "10.1.1.1" none =
        (attemptState "10.1.1.1" 2 10, none) ∧
      validateConnection (attemptState "10.1.1.1" 2 10) 30 "10.1.1.1" none =
        (attemptState "10.1.1.1" 3 10, none) ∧
      validateConnection (attemptState "10.1.1.1" 3 10) 40 "10.1.1.1" none =
        (attemptState "10.1.1.1" 4 10, none) ∧
      validateConnection (attemptState "10.1.1.1" 4 10) 50 "10.1.1.1" none =
        (attemptState "10.1.1.1" 5 10, none) ∧
      validateConnection (attemptState "10.1.1.1" 5 10) 60 "10.1.1.1" none =
        (banState "10.1.1.1" 6 10 300060, some "Too many connection attempts") ∧
      validateConnection (banState "10.1.1.1" 6 10 300060) 100 "10.1.1.1" none =
        (banState "10.1.1.1" 6 10 300060, some "IP temporarily blocked") := by
  have h := c9_soft_ban "10.1.1.1" 10 20 30 40 50 60 (by decide) (by decide) (by decide)
    (by decide) (by decide) (by decide)
  exact ⟨h.1, h.2.1, h.2.2.1, h.2.2.2.1, h.2.2.2.2.1, h.2.2.2.2.2.1,
    h.2.2.2.2.2.2 100 (by decide)⟩

theorem byteAt_drop : ∀ (m : Nat) (l : List Nat) (i : Nat), byteAt (l.drop m) i = byteAt l (m + i)
  | 0, l, i => by simp
  | m + 1, [], i => by simp [byteAt]
  | m + 1, x :: xs, i => by
      simp only [List.drop_succ_cons]
      rw [byteAt_drop m xs i]
      have h : m + 1 + i = (m + i) + 1 := by omega
      rw [h]
      rfl

theorem byteAt_append_right (l₁ l₂ : List Nat) (n : Nat) (h : l₁.length ≤ n) :
    byteAt (l₁ ++ l₂) n = byteAt l₂ (n - l₁.length) := by
  simp [byteAt, List.getD_eq_getElem?_getD, List.getElem?_append_right h]

theorem parse_frame6 (L : Nat) (body : List Nat) (hL : body.length = L) (hmax : L ≤ 4096)
    (c : Nat) :
    parseCodec12Response
        ([0, 0, 0, 0] ++ be32 (8 + L) ++ [12, 1, 6] ++ be32 L ++ body ++ [1] ++ be32 c) =
      ⟨true, some (body.map (fun b => b &&& 127)), none⟩ := by
  set F := [0, 0, 0, 0] ++ be32 (8 + L) ++ [12, 1, 6] ++ be32 L ++ body ++ [1] ++ be32 c with hF
  have hlen : F.length = 20 + L := by
    simp [hF, be32, hL]
    omega
  have b0 : byteAt F 0 = 0 := rfl
  have b1 : byteAt F 1 = 0 := rfl
  have b2 : byteAt F 2 = 0 := rfl
  have b3 : byteAt F 3 = 0 := rfl
  have e0 : readU32 F 0 = 0 := by
    simp [readU32, b0, b1, b2, b3]
  have b4 : byteAt F 4 = (8 + L) / 2 ^ 24 % 256 := rfl
  have b5 : byteAt F 5 = (8 + L) / 2 ^ 16 % 256 := rfl
  have b6 : byteAt F 6 = (8 + L) / 2 ^ 8 % 256 := rfl
  have b7 : byteAt F 7 = (8 + L) % 256 := rfl
  have e4 : readU32 F 4 = 8 + L := by
    simp only [readU32, b4, b5, b6, b7]
    omega
  have b8 : byteAt F 8 = 12 := rfl
  have b9 : byteAt F 9 = 1 := rfl
  have b10 : byteAt F 10 = 6 := rfl
  have b11 : byteAt F 11 = L / 2 ^ 24 % 256 := rfl
  have b12 : byteAt F 12 = L / 2 ^ 16 % 256 := rfl
  have b13 : byteAt F 13 = L / 2 ^ 8 % 256 := rfl
  have b14 : byteAt F 14 = L % 256 := rfl
  have e11 : readU32 F 11 = L := by
    simp only [readU32, b11, b12, b13, b14]
    omega
  have edrop : F.drop 15 = (body ++ [1]) ++ be32 c := rfl
  have etake : ((body ++ [1]) ++ be32 c).take L = body := by
    rw [List.append_assoc]
    exact List.take_left' hL
  have eq2 : byteAt F (15 + L) = 1 := by
    rw [← byteAt_drop 15 F L, edrop, List.append_assoc,
      byteAt_append_right body ([1] ++ be32 c) L (by omega), hL]
    simp [byteAt]
  simp only [parseCodec12Response, hlen, e0, e4, b8, b9, b10, e11, edrop, etake, eq2]
  split_ifs <;> first | rfl | omega

theorem parse_frame5 (L : Nat) (body : List Nat) (hL : body.length = L) (hmax : L ≤ 4096)
    (c : Nat) :
    parseCodec12Response
        ([0, 0, 0, 0] ++ be32 (8 + L) ++ [12, 1, 5] ++ be32 L ++ body ++ [1] ++ be32 c) =
      ⟨false, none, some "Invalid response type"⟩ := by
  set F := [0, 0, 0, 0] ++ be32 (8 + L) ++ [12, 1, 5] ++ be32 L ++ body ++ [1] ++ be32 c with hF
  have hlen : F.length = 20 + L := by
    simp [hF, be32, hL]
    omega
  have b0 : byteAt F 0 = 0 := rfl
  have b1 : byteAt F 1 = 0 := rfl
  have b2 : byteAt F 2 = 0 := rfl
  have b3 : byteAt F 3 = 0 := rfl
  have e0 : readU32 F 0 = 0 := by
    simp [readU32, b0, b1, b2, b3]
  have b4 : byteAt F 4 = (8 + L) / 2 ^ 24 % 256 := rfl
  have b5 : byteAt F 5 = (8 + L) / 2 ^ 16 % 256 := rfl
  have b6 : byteAt F 6 = (8 + L) / 2 ^ 8 % 256 := rfl
  have b7 : byteAt F 7 = (8 + L) % 256 := rfl
  have e4 : readU32 F 4 = 8 + L := by
    simp only [readU32, b4, b5, b6, b7]
    omega
  have b8 : byteAt F 8 = 12 := rfl
  have b10 : byteAt F 10 = 5 := rfl
  simp only [parseCodec12Response, hlen, e0, e4, b8, b10]
  split_ifs <;> first | rfl | omega

theorem build_eq_frame (cmd : List Nat) (hmap : ∀ b ∈ cmd, b < 256) :
    buildCodec12Command cmd =
      [0, 0, 0, 0] ++ be32 (8 + cmd.length) ++ [12, 1, 5] ++ be32 cmd.length ++ cmd ++ [1] ++
        be32 (calculateCRC16 ([12, 1, 5] ++ be32 cmd.length ++ cmd ++ [1])) := by
  have hm : cmd.map (fun c => c % 256) = cmd := by
    rw [List.map_congr_left (fun b hb => Nat.mod_eq_of_lt (hmap b hb))]
    simp
  have hds : 1 + 1 + 1 + 4 + cmd.length + 1 = 8 + cmd.length := by omega
  simp only [buildCodec12Command, hm, hds]
  simp [be32, List.append_assoc]

theorem set_type_byte (X Y Z : Nat) (body : List Nat) :
    ([0, 0, 0, 0] ++ be32 X ++ [12, 1, 5] ++ be32 Y ++ body ++ [1] ++ be32 Z).set 10 6 =
      [0, 0, 0, 0] ++ be32 X ++ [12, 1, 6] ++ be32 Y ++ body ++ [1] ++ be32 Z := rfl



/-- Claim C1 fails on the code: decoding the encoded request for the
concrete command `getver` yields a failure (`Invalid response type`),
not the original text — the encoder emits type 0x05 where the decoder
demands 0x06. -/
theorem c1_counterexample :
    parseCodec12Response (buildCodec12Command [103, 101, 116, 118, 101, 114]) =
        ⟨false, none, some "Invalid response type"⟩ ∧
      (parseCodec12Response (buildCodec12Command [103, 101, 116, 118, 101, 114])).response ≠
        some [103, 101, 116, 118, 101, 114] := by
  decide

/-- Claim C1 amended: the encode/decode round trip fails as stated —
for every ASCII command text of 1..4096 bytes,
`parseCodec12Response (buildCodec12Command text)` is a failure with an
invalid-response-type error, because the encoder writes type byte 0x05
at offset 10 while the decoder requires 0x06; with that one byte
rewritten to 0x06 the decode succeeds and returns exactly the original
text (the CRC mismatch produced by the rewrite is tolerated by the
parser). -/
theorem c1_roundtrip (cmd : List Nat) (hlen1 : 1 ≤ cmd.length) (hlen2 : cmd.length ≤ 4096)
    (hascii : ∀ b ∈ cmd, b < 128) :
    parseCodec12Response (buildCodec12Command cmd) =
        ⟨false, none, some "Invalid response type"⟩ ∧
      parseCodec12Response ((buildCodec12Command cmd).set 10 6) = ⟨true, some cmd, none⟩ := by
  have h256 : ∀ b ∈ cmd, b < 256 := fun b hb => lt_trans (hascii b hb) (by norm_num)
  have hb := build_eq_frame cmd h256
  constructor
  · rw [hb]
    exact parse_frame5 cmd.length cmd rfl hlen2 _
  · rw [hb, set_type_byte]
    rw [parse_frame6 cmd.length cmd rfl hlen2 _]
    have hmap127 : cmd.map (fun b => b &&& 127) = cmd := by
      have hall : ∀ b ∈ cmd, b &&& 127 = b := by
        intro b hbm
        have h7 : (127 : Nat) = 2 ^ 7 - 1 := by norm_num
        rw [h7]
        exact Nat.and_pow_two_sub_one_of_lt_two_pow (hascii b hbm)
      rw [List.map_congr_left hall]
      simp
    rw [hmap127]


theorem c1_witness :
    1 ≤ ([103, 101, 116, 118, 101, 114] : List Nat).length ∧
      ([103, 101, 116, 118, 101, 114] : List Nat).length ≤ 4096 ∧
      (∀ b ∈ ([103, 101, 116, 118, 101, 114] : List Nat), b < 128) ∧
      (parseCodec12Response (buildCodec12Command [103, 101, 116, 118, 101, 114]) =
          ⟨false, none, some "Invalid response type"⟩ ∧
        parseCodec12Response ((buildCodec12Command [103, 101, 116, 118, 101, 114]).set 10 6) =
          ⟨true, some [103, 101, 116, 118, 101, 114], none⟩) :=
  ⟨by decide, by decide, by decide,
    c1_roundtrip [103, 101, 116, 118, 101, 114] (by decide) (by decide) (by decide)⟩
